import Mathlib

/-!
Verification of the root-key keyring subsystem (`nomad/encrypter.go`).

The Go source is shallowly embedded: byte slices become `List Nat`,
`map[string]cipher.AEAD` becomes an association list, fallible calls return
`Except String`, and the method receiver plus the mutable world (keystore
directory contents, randomness) are passed and returned explicitly.
Each definition is annotated with the source lines it translates.
-/

namespace NomadKeyring

/-- Model of a constructed `cipher.AEAD` value: the raw key it was built
from and the nonce size of the algorithm (12 bytes for AES-256-GCM via
`cipher.NewGCM`, 24 bytes for `chacha20poly1305.NewX`). The stub
`Encrypt`/`Decrypt` bodies in the source never consult it. -/
structure AEAD where
  key : List Nat
  nonceSize : Nat
deriving DecidableEq, Repr

/-- `api.RootKeyMeta` as serialized in a key file: key ID, algorithm name,
active flag, creation time. -/
structure ApiRootKeyMeta where
  KeyID : String
  Algorithm : String
  Active : Bool
  CreateTime : Int
deriving DecidableEq, Repr

/-- `api.RootKey`: the on-disk key record. `Meta` is a pointer in Go and may
be nil, hence `Option`; `Key` is the base64-encoded key material. -/
structure ApiRootKey where
  Meta : Option ApiRootKeyMeta
  Key : String
deriving DecidableEq, Repr

/-- `structs.RootKeyMeta`: metadata of an in-memory root key. -/
structure RootKeyMeta where
  KeyID : String
  Algorithm : String
  Active : Bool
  CreateTime : Int
deriving DecidableEq, Repr

/-- `structs.RootKey`: metadata plus raw key bytes. Every construction site
in the source populates `Meta`, and `PersistRootKey` dereferences it
unconditionally, so it is modelled as a plain field. A nil `Key` slice is
modelled as `[]`. -/
structure RootKey where
  Meta : RootKeyMeta
  Key : List Nat
deriving DecidableEq, Repr

/-- Contents of one file in the keystore directory. Serialized forms are
kept abstract: `jsonRootKey k` stands for the bytes `json.Marshal` produces
for the `structs.RootKey` value `k` (written by `PersistRootKey`), and
`jsonApiRootKey r` stands for bytes that are a well-formed JSON encoding of
the `api.RootKey` record `r`; `bytes raw` is arbitrary other content. -/
inductive FileData where
  | bytes (raw : List Nat)
  | jsonApiRootKey (rec : ApiRootKey)
  | jsonRootKey (rec : RootKey)
deriving DecidableEq, Repr

/-- One directory entry of the keystore directory (`name` relative to the
directory); for a subdirectory `isDir` is true and `data` is ignored. -/
structure KeystoreEntry where
  name : String
  isDir : Bool
  data : FileData
deriving DecidableEq, Repr

/-- The `Encrypter` struct (encrypter.go lines 25-28): a map of key IDs to
ciphers, modelled as an association list, plus the keystore path. -/
structure Encrypter where
  ciphers : List (String × AEAD)
  keystorePath : String
deriving DecidableEq, Repr

/-- `api.EncryptionAlgorithmAES256GCM` and
`structs.EncryptionAlgorithmAES256GCM`: both are the string below. -/
def encryptionAlgorithmAES256GCM : String := "aes256-gcm"

/-- `api.EncryptionAlgorithmXChaCha20` and
`structs.EncryptionAlgorithmXChaCha20`: both are the string below. -/
def encryptionAlgorithmXChaCha20 : String := "xchacha20poly1305"

/-- `chacha20poly1305.KeySize`: 32 bytes. -/
def chacha20poly1305KeySize : Nat := 32

/-- `filepath.Base` for the slash-separated paths this subsystem builds:
the final path element. -/
def filepathBase (path : String) : String :=
  ((path.toList.reverse.takeWhile (fun c => c ≠ '/')).reverse).asString

/-- `filepath.Ext`: the suffix of the final path element beginning at its
final dot, or the empty string if the final element has no dot. -/
def filepathExt (path : String) : String :=
  let b := (filepathBase path).toList
  if b.contains '.' then
    ("." ++ ((b.reverse.takeWhile (fun c => c ≠ '.')).reverse).asString)
  else ""

/-- `strings.TrimSuffix`: removes the given suffix if present, otherwise
returns the string unchanged. -/
def stringsTrimSuffix (s suff : String) : String :=
  if suff.toList.isSuffixOf s.toList then
    ((s.toList.take (s.toList.length - suff.toList.length)).asString)
  else s

/-- ASCII hexadecimal digit test (either case). -/
def isHexDigit (c : Char) : Bool :=
  ('0' ≤ c && c ≤ '9') || ('a' ≤ c && c ≤ 'f') || ('A' ≤ c && c ≤ 'F')

/-- Modelled from the spec: `helper.IsUUID` (package helper, whose source
is not included) reports whether a string is a valid key-ID-shaped
identifier, i.e. a UUID in its canonical 8-4-4-4-12 hexadecimal form. -/
def isUUID (s : String) : Bool :=
  let cs := s.toList
  cs.length == 36 &&
  (List.range 36).all (fun i =>
    if i == 8 || i == 13 || i == 18 || i == 23 then cs.getD i ' ' == '-'
    else isHexDigit (cs.getD i ' '))

/-- `base64.StdEncoding.DecodedLen`: the buffer size allocated for decoding
`n` base64 bytes, `n / 4 * 3`; for padded input this can exceed the number
of bytes actually decoded. -/
def base64DecodedLen (n : Nat) : Nat := n / 4 * 3

/-- Value of one character of the standard base64 alphabet. -/
def b64Val (c : Char) : Option Nat :=
  if 'A' ≤ c && c ≤ 'Z' then some (c.toNat - 65)
  else if 'a' ≤ c && c ≤ 'z' then some (c.toNat - 71)
  else if '0' ≤ c && c ≤ '9' then some (c.toNat + 4)
  else if c = '+' then some 62
  else if c = '/' then some 63
  else none

/-- Decoding of padded standard base64, one 4-character quantum at a time:
a quantum ending in one `=` yields two bytes, in `==` one byte, and padding
may appear only in the final quantum; anything else is rejected. -/
def b64DecodeGroups : List Char → Except String (List Nat)
  | [] => .ok []
  | a :: b :: c :: d :: rest =>
    match b64Val a, b64Val b with
    | some va, some vb =>
      if c = '=' then
        if d = '=' && rest.isEmpty then .ok [va * 4 + vb / 16]
        else .error ("illegal base64 data")
      else
        match b64Val c with
        | some vc =>
          if d = '=' then
            if rest.isEmpty then .ok [va * 4 + vb / 16, vb % 16 * 16 + vc / 4]
            else .error ("illegal base64 data")
          else
            match b64Val d with
            | some vd =>
              match b64DecodeGroups rest with
              | .ok tail =>
                .ok ([va * 4 + vb / 16, vb % 16 * 16 + vc / 4, vc % 4 * 64 + vd] ++ tail)
              | .error e => .error e
            | none => .error ("illegal base64 data")
        | none => .error ("illegal base64 data")
    | _, _ => .error ("illegal base64 data")
  | _ => .error ("illegal base64 data")

/-- `base64.StdEncoding.Decode` applied to the textual key field. -/
def base64StdDecode (s : String) : Except String (List Nat) :=
  b64DecodeGroups s.toList

/-- `aes.NewCipher`: accepts a key of 16, 24 or 32 bytes, rejecting any
other length; the block cipher is represented by its key. -/
def aesNewCipher (key : List Nat) : Except String (List Nat) :=
  if key.length = 16 ∨ key.length = 24 ∨ key.length = 32 then .ok key
  else .error ("crypto/aes: invalid key size")

/-- `cipher.NewGCM` over an AES block: always succeeds, standard 12-byte
nonce. -/
def cipherNewGCM (block : List Nat) : Except String AEAD :=
  .ok { key := block, nonceSize := 12 }

/-- `chacha20poly1305.NewX`: requires exactly 32 key bytes, 24-byte nonce. -/
def chacha20poly1305NewX (key : List Nat) : Except String AEAD :=
  if key.length = 32 then .ok { key := key, nonceSize := 24 }
  else .error ("chacha20poly1305: bad key length")

/-- Go map assignment `ciphers[id] = aead` on the association list:
replaces an existing entry for the key or appends a new one. -/
def mapInsert (m : List (String × AEAD)) (k : String) (v : AEAD) :
    List (String × AEAD) :=
  if (m.lookup k).isSome then
    m.map (fun p => if p.1 = k then (k, v) else p)
  else m ++ [(k, v)]

/-- `validateKeyFromStore` (encrypter.go lines 45-60): rejects a nil
envelope, nil metadata, an empty or mismatching key ID, and an empty
algorithm field (any non-empty algorithm string passes). -/
def validateKeyFromStore (rootKey : Option ApiRootKey) (id : String) :
    Except String Unit :=
  match rootKey with
  | none => .error ("root key envelope is missing")
  | some rk =>
    match rk.Meta with
    | none => .error ("root key metadata is required")
    | some meta =>
      if meta.KeyID = "" ∨ meta.KeyID ≠ id then
        .error ("root key UUID is required and must match key file")
      else if meta.Algorithm = "" then
        .error ("algorithm is required")
      else .ok ()

/-- The parse step of `loadKeyFromPath` (encrypter.go lines 83-86):
`var rootKey *api.RootKey` followed by `json.Unmarshal(raw, rootKey)`.
The unmarshal target is the nil pointer value of `rootKey`, and Go's
`encoding/json` rejects a nil (or non-pointer) target with an
`InvalidUnmarshalError` before examining the input, so this call fails for
every input and the record is never populated. -/
def jsonUnmarshalNilApiRootKey (raw : FileData) : Except String (Option ApiRootKey) :=
  .error ("json: Unmarshal(nil *api.RootKey)")

/-- `loadKeyFromPath` (encrypter.go lines 66-117), acting on the cipher map
it closes over: skips (without error) files whose extension is not `.json`
or whose base name minus the extension is not a UUID; otherwise parses the
content (the parse always fails here, see `jsonUnmarshalNilApiRootKey`),
validates it, base64-decodes the key field into a `DecodedLen` buffer that
is used whole (so a padded encoding leaves trailing zero bytes), and
registers a cipher according to the algorithm switch — which has no default
case, so an unrecognized algorithm registers nothing and reports no error. -/
def loadKeyFromPath (ciphers : List (String × AEAD)) (path : String)
    (data : FileData) : Except String (List (String × AEAD)) :=
  if filepathExt path ≠ ".json" then .ok ciphers
  else
    let id := stringsTrimSuffix (filepathBase path) (".json")
    if isUUID id = false then .ok ciphers
    else
      match jsonUnmarshalNilApiRootKey data with
      | .error e => .error e
      | .ok rootKey =>
        match validateKeyFromStore rootKey id with
        | .error e => .error e
        | .ok _ =>
          -- the remaining branches are unreachable: the parse above never
          -- succeeds, and validation would reject an absent record anyway
          match rootKey with
          | none => .error ("root key envelope is missing")
          | some rk =>
            match rk.Meta with
            | none => .error ("root key metadata is required")
            | some meta =>
              match base64StdDecode rk.Key with
              | .error e => .error ("could not decode key: " ++ e)
              | .ok decoded =>
                let key := decoded ++
                  List.replicate (base64DecodedLen rk.Key.length - decoded.length) 0
                if meta.Algorithm = encryptionAlgorithmAES256GCM then
                  match aesNewCipher key with
                  | .error e => .error ("could not create cipher: " ++ e)
                  | .ok block =>
                    match cipherNewGCM block with
                    | .error e => .error ("could not create cipher: " ++ e)
                    | .ok aead => .ok (mapInsert ciphers meta.KeyID aead)
                else if meta.Algorithm = encryptionAlgorithmXChaCha20 then
                  match chacha20poly1305NewX key with
                  | .error e => .error ("could not create cipher: " ++ e)
                  | .ok aead => .ok (mapInsert ciphers meta.KeyID aead)
                else .ok ciphers

/-- Return value of one `filepath.WalkFunc` invocation: nil, the sentinel
`filepath.SkipDir`, or an ordinary error. -/
inductive WalkRet where
  | nilRet
  | skipDir
  | err (msg : String)
deriving DecidableEq, Repr

/-- The anonymous walk callback of `encrypterFromKeystore` (encrypter.go
lines 119-131), threading the cipher map: a stat error on the path would be
wrapped and returned (not modelled — the directory and its entries are
readable); any directory yields `filepath.SkipDir`; a file is handed to
`loadKeyFromPath`, whose error is wrapped as fatal. -/
def walkFn (ciphers : List (String × AEAD)) (path : String) (isDir : Bool)
    (data : FileData) : List (String × AEAD) × WalkRet :=
  if isDir then (ciphers, .skipDir)
  else
    match loadKeyFromPath ciphers path data with
    | .ok c2 => (c2, .nilRet)
    | .error e =>
      (ciphers, .err ("could not load key file " ++ path ++ " from keystore: " ++ e))

/-- The entry loop of Go's `filepath.walk` over the root directory's
entries (which Walk visits in lexical name order — the list order here):
nil from the callback continues; `SkipDir` from a file skips the remaining
entries of the directory; `SkipDir` from a subdirectory skips its contents
and continues; any other error aborts the walk. -/
def walkEntries (root : String) :
    List (String × AEAD) → List KeystoreEntry → List (String × AEAD) × Option String
  | ciphers, [] => (ciphers, none)
  | ciphers, entry :: rest =>
    match walkFn ciphers (root ++ "/" ++ entry.name) entry.isDir entry.data with
    | (c2, .nilRet) => walkEntries root c2 rest
    | (c2, .skipDir) =>
      if entry.isDir then walkEntries root c2 rest else (c2, none)
    | (c2, .err m) => (c2, some m)

/-- `filepath.Walk(keystoreDirectory, fn)` for a root that exists and is a
directory with the given entries. Walk stats the root and invokes the
callback on the root itself first; `filepath.SkipDir` returned there makes
Walk skip the entire directory and report a nil error. With the callback
above the root — being a directory — always takes that branch, so the
entry loop below it is unreachable. -/
def filepathWalkKeystore (root : String) (entries : List KeystoreEntry)
    (ciphers : List (String × AEAD)) : List (String × AEAD) × Option String :=
  match walkFn ciphers root true (.bytes []) with
  | (c, .skipDir) => (c, none)
  | (c, .err m) => (c, some m)
  | (c, .nilRet) => walkEntries root c entries

/-- `encrypterFromKeystore` (encrypter.go lines 62-140): starts from an
empty cipher map, walks the keystore directory, and on a nil walk error
returns the encrypter holding the accumulated map and the directory path. -/
def encrypterFromKeystore (keystoreDirectory : String)
    (entries : List KeystoreEntry) : Except String Encrypter :=
  match filepathWalkKeystore keystoreDirectory entries [] with
  | (_, some m) => .error m
  | (c, none) => .ok { ciphers := c, keystorePath := keystoreDirectory }

/-- `Encrypter.Encrypt` (encrypter.go lines 146-149). The doc comment in the
source promises nonce generation and encryption under the cipher for the
key ID, but the body is the observed stand-in: it returns `unencryptedData`
unchanged (the body reads `// TODO: actually encrypt!`). It never consults
`e.ciphers` and never fails. -/
def Encrypter.Encrypt (e : Encrypter) (unencryptedData : List Nat) (keyID : String) :
    List Nat :=
  unencryptedData

/-- `Encrypter.Decrypt` (encrypter.go lines 153-156). The doc comment in the
source promises nonce extraction and decryption, but the body is the
observed stand-in: it returns `(encryptedData, nil)` (the body reads
`// TODO: actually decrypt!`). It never consults `e.ciphers`, never splits
a nonce, and never fails. -/
def Encrypter.Decrypt (e : Encrypter) (encryptedData : List Nat) (keyID : String) :
    Except String (List Nat) :=
  .ok encryptedData

/-- Modelled from the spec: `structs.NewRootKeyMeta` (package structs,
whose source is not included) builds fresh metadata for a root key — a new
key ID and a creation timestamp, supplied here as the parameters `freshID`
and `now`; the active flag starts unset and the algorithm is filled in by
the caller. -/
def NewRootKeyMeta (freshID : String) (now : Int) : RootKeyMeta :=
  { KeyID := freshID, Algorithm := "", Active := false, CreateTime := now }

/-- `Encrypter.GenerateNewRootKey` (encrypter.go lines 159-184): builds
fresh metadata, records the requested algorithm in it, and draws 32 random
key bytes for either supported algorithm; `rand n` models
`cryptorand.Read` into a buffer of `n` bytes (`.ok` returns the filled
buffer). The algorithm switch has no default case: for any other algorithm
the key is returned with its `Key` still nil and a nil error. -/
def Encrypter.GenerateNewRootKey (e : Encrypter) (algorithm : String)
    (freshID : String) (now : Int) (rand : Nat → Except String (List Nat)) :
    Except String RootKey :=
  let meta := { NewRootKeyMeta freshID now with Algorithm := algorithm }
  let rootKey : RootKey := { Meta := meta, Key := [] }
  if algorithm = encryptionAlgorithmAES256GCM then
    match rand 32 with
    | .error msg => .error msg
    | .ok key => .ok { rootKey with Key := key }
  else if algorithm = encryptionAlgorithmXChaCha20 then
    match rand chacha20poly1305KeySize with
    | .error msg => .error msg
    | .ok key => .ok { rootKey with Key := key }
  else
    .ok rootKey

/-- `os.WriteFile` within the keystore directory: creates the named file or
truncates an existing one (last write wins). -/
def writeFile (entries : List KeystoreEntry) (name : String) (data : FileData) :
    List KeystoreEntry :=
  if entries.any (fun ent => ent.name == name) then
    entries.map (fun ent =>
      if ent.name == name then { name := name, isDir := false, data := data } else ent)
  else entries ++ [{ name := name, isDir := false, data := data }]

/-- `Encrypter.PersistRootKey` (encrypter.go lines 186-197): marshals the
root key to JSON and writes it to `<keystorePath>/<KeyID>.json`. The
receiver is returned unchanged alongside the updated directory: the body
reads `e.keystorePath` but assigns to no field of the encrypter (in
particular not `ciphers`). `json.Marshal` of these types cannot fail, and
disk failure of the write is not modelled, so the returned error is nil. -/
def Encrypter.PersistRootKey (e : Encrypter) (rootKey : RootKey)
    (entries : List KeystoreEntry) :
    Encrypter × List KeystoreEntry × Except String Unit :=
  let buf : FileData := .jsonRootKey rootKey
  (e, writeFile entries (rootKey.Meta.KeyID ++ ".json") buf, .ok ())

/-! Concrete states and inputs used by the theorems below. -/

/-- A ready-made AEAD value standing for a constructed AES-256-GCM cipher
(32 zero key bytes, 12-byte nonce), used to populate concrete encrypter
states. -/
def aeadA : AEAD :=
  { key := List.replicate 32 0, nonceSize := 12 }

/-- A concrete encrypter state with exactly one registered key ID. -/
def encA : Encrypter :=
  { ciphers := [("aaaaaaaa-bbbb-cccc-dddd-eeeeeeeeeeee", aeadA)]
    keystorePath := "/keystore" }

/-- A concrete encrypter state with an empty cipher map. -/
def encB : Encrypter :=
  { ciphers := [], keystorePath := "/keystore" }

/-- A file named like a valid key ID, with the key-file extension, whose
content is not a parseable key record (the bytes of "garbage"). -/
def corruptKeyEntry : KeystoreEntry :=
  { name := "aaaaaaaa-bbbb-cccc-dddd-eeeeeeeeeeee.json", isDir := false
    data := .bytes [103, 97, 114, 98, 97, 103, 101] }

/-- The padded standard base64 encoding of 32 zero bytes. -/
def zeroKeyB64 : String := "AAAAAAAAAAAAAAAAAAAAAAAAAAAAAAAAAAAAAAAAAAA="

/-- A well-formed key file: named by a valid key ID with the `.json`
extension, its content the JSON encoding of a complete `api.RootKey` record
whose embedded ID matches the filename-derived ID, with a recognized
algorithm and a base64 key field. -/
def wellFormedKeyEntry : KeystoreEntry :=
  { name := "bbbbbbbb-1111-2222-3333-cccccccccccc.json", isDir := false
    data := .jsonApiRootKey
      { Meta := some
          { KeyID := "bbbbbbbb-1111-2222-3333-cccccccccccc"
            Algorithm := "aes256-gcm"
            Active := true
            CreateTime := 1 }
        Key := zeroKeyB64 } }

/-- A stray non-key file: wrong extension, non-UUID name. -/
def strayEntry : KeystoreEntry :=
  { name := "README.md", isDir := false, data := .bytes [104, 105] }

/-- A concrete root key to persist (aes256-gcm, 32 key bytes of value 7). -/
def rootKeyC7 : RootKey :=
  { Meta := { KeyID := "cccccccc-1111-2222-3333-444444444444"
              Algorithm := encryptionAlgorithmAES256GCM
              Active := false
              CreateTime := 0 }
    Key := List.replicate 32 7 }

/-- The keystore directory contents after persisting `rootKeyC7` into an
empty directory. -/
def persistedDirC7 : List KeystoreEntry :=
  (encB.PersistRootKey rootKeyC7 []).2.1

/-- A random source filling a buffer of `n` bytes with byte value 1. -/
def randOnes (n : Nat) : Except String (List Nat) := .ok (List.replicate n 1)

/-- A random source filling a buffer of `n` bytes with byte value 2. -/
def randTwos (n : Nat) : Except String (List Nat) := .ok (List.replicate n 2)

/-- The root key `GenerateNewRootKey` produces for aes256-gcm from the
`randTwos` source with the fresh ID and time below. -/
def rootKeyC9 : RootKey :=
  { Meta := { KeyID := "ffffffff-0000-0000-0000-000000000000"
              Algorithm := encryptionAlgorithmAES256GCM
              Active := false
              CreateTime := 3 }
    Key := List.replicate 32 2 }

/-! The claims. -/

/-- C1: for every encrypter state, every key ID with a registered (valid)
cipher, and every plaintext byte string `m` — including the empty string —
`Decrypt (Encrypt m keyID) keyID` returns `m`. In the source both
operations are identity stand-ins, so the round trip holds definitionally. -/
theorem c1_decrypt_encrypt_roundtrip (e : Encrypter) (keyID : String) (a : AEAD)
    (h : e.ciphers.lookup keyID = some a) (m : List Nat) :
    e.Decrypt (e.Encrypt m keyID) keyID = .ok m :=
  rfl

/-- Witness for C1 at a concrete registered key and concrete plaintexts,
including the empty one. -/
theorem c1_witness :
    encA.ciphers.lookup ("aaaaaaaa-bbbb-cccc-dddd-eeeeeeeeeeee") = some aeadA ∧
    encA.Decrypt (encA.Encrypt [7, 8, 9] ("aaaaaaaa-bbbb-cccc-dddd-eeeeeeeeeeee"))
      ("aaaaaaaa-bbbb-cccc-dddd-eeeeeeeeeeee") = .ok [7, 8, 9] ∧
    encA.Decrypt (encA.Encrypt [] ("aaaaaaaa-bbbb-cccc-dddd-eeeeeeeeeeee"))
      ("aaaaaaaa-bbbb-cccc-dddd-eeeeeeeeeeee") = .ok [] :=
  ⟨by decide,
   c1_decrypt_encrypt_roundtrip encA ("aaaaaaaa-bbbb-cccc-dddd-eeeeeeeeeeee") aeadA
     (by decide) [7, 8, 9],
   c1_decrypt_encrypt_roundtrip encA ("aaaaaaaa-bbbb-cccc-dddd-eeeeeeeeeeee") aeadA
     (by decide) []⟩

/-- C2 (code bug): `Encrypt` is the identity on its plaintext argument, so
two calls on the identical plaintext under the same registered key ID
return the identical envelope — no nonce is drawn and no randomness enters
at all, contradicting the claim (and the source function's own doc
comment, which promises nonce generation and encryption). Shown at the
concrete plaintext `[1, 2, 3]` under the registered key of `encA`. -/
theorem c2_encrypt_is_deterministic_identity :
    encA.Encrypt [1, 2, 3] ("aaaaaaaa-bbbb-cccc-dddd-eeeeeeeeeeee") = [1, 2, 3] ∧
    encA.Encrypt [1, 2, 3] ("aaaaaaaa-bbbb-cccc-dddd-eeeeeeeeeeee") =
      encA.Encrypt [1, 2, 3] ("aaaaaaaa-bbbb-cccc-dddd-eeeeeeeeeeee") :=
  ⟨rfl, rfl⟩

/-- C3 (code bug): the empty envelope is strictly shorter than the 12-byte
nonce of the registered AES-256-GCM key, yet `Decrypt` succeeds and returns
it unchanged instead of failing with `MalformedCiphertext`: the stand-in
body never splits off a nonce and never fails. -/
theorem c3_decrypt_accepts_short_envelope :
    (encA.ciphers.lookup ("aaaaaaaa-bbbb-cccc-dddd-eeeeeeeeeeee")).map AEAD.nonceSize =
      some 12 ∧
    encA.Decrypt [] ("aaaaaaaa-bbbb-cccc-dddd-eeeeeeeeeeee") = .ok [] :=
  ⟨by decide, rfl⟩

/-- C4 (code bug): the key ID below is not registered in `encA`, yet both
`Encrypt` and `Decrypt` succeed and pass the data through instead of
failing with `KeyNotFound`: the stand-in bodies never resolve the cipher. -/
theorem c4_unregistered_key_id_not_rejected :
    encA.ciphers.lookup ("00000000-0000-0000-0000-000000000000") = none ∧
    encA.Encrypt [9] ("00000000-0000-0000-0000-000000000000") = [9] ∧
    encA.Decrypt [9] ("00000000-0000-0000-0000-000000000000") = .ok [9] :=
  ⟨by decide, rfl, rfl⟩

/-- C5 (code bug): a keystore holding one filter-passing but corrupt key
file loads without error into an encrypter with an empty cipher map,
instead of failing. The walk callback answers `filepath.SkipDir` for the
root directory itself, so no file is ever examined; `loadKeyFromPath`
itself would indeed reject the file (first conjunct — its parse step hands
`json.Unmarshal` a nil target), but that rejection is unreachable. -/
theorem c5_load_succeeds_despite_corrupt_key_file :
    loadKeyFromPath [] ("/keystore/" ++ corruptKeyEntry.name) corruptKeyEntry.data =
      .error ("json: Unmarshal(nil *api.RootKey)") ∧
    encrypterFromKeystore ("/keystore") [corruptKeyEntry] =
      .ok { ciphers := [], keystorePath := "/keystore" } :=
  ⟨rfl, rfl⟩

/-- C6 (code bug): a keystore holding one well-formed key file and one
stray file loads without error but registers zero keys, not exactly one:
the walk skips the whole directory (SkipDir at the root), so the
well-formed key is never loaded. The stray file alone would indeed be
skipped (first conjunct), but the well-formed file, had it been visited,
would have failed the load rather than registered (second conjunct):
its parse hands `json.Unmarshal` a nil target. -/
theorem c6_stray_plus_wellformed_loads_zero_keys :
    loadKeyFromPath [] ("/keystore/" ++ strayEntry.name) strayEntry.data = .ok [] ∧
    loadKeyFromPath [] ("/keystore/" ++ wellFormedKeyEntry.name) wellFormedKeyEntry.data =
      .error ("json: Unmarshal(nil *api.RootKey)") ∧
    encrypterFromKeystore ("/keystore") [wellFormedKeyEntry, strayEntry] =
      .ok { ciphers := [], keystorePath := "/keystore" } :=
  ⟨rfl, rfl, rfl⟩

/-- C7 (code bug): persisting a root key writes the expected file (first
conjunct), but loading the keystore afterwards reconstructs nothing: the
walk skips the whole directory, the loaded encrypter's cipher map is empty,
and the persisted key's ID resolves to nothing in it (the parse would also
fail on the nil unmarshal target if the file were visited). -/
theorem c7_persist_then_load_drops_key :
    persistedDirC7 =
      [{ name := "cccccccc-1111-2222-3333-444444444444.json", isDir := false
         data := .jsonRootKey rootKeyC7 }] ∧
    encrypterFromKeystore ("/keystore") persistedDirC7 =
      .ok { ciphers := [], keystorePath := "/keystore" } ∧
    (([] : List (String × AEAD)).lookup rootKeyC7.Meta.KeyID) = none :=
  ⟨by decide, rfl, rfl⟩

/-- C8 counterexample: `GenerateNewRootKey` applied to the unrecognized
algorithm identifier "bogus-algorithm" does not fail — it returns a root
key (with empty key material) and a nil error, refuting the claim that it
fails with `UnsupportedAlgorithm` and produces no key. -/
theorem c8_counterexample_unknown_algorithm_yields_key :
    encB.GenerateNewRootKey ("bogus-algorithm")
      ("dddddddd-0000-0000-0000-000000000000") 5 randOnes =
      .ok { Meta := { KeyID := "dddddddd-0000-0000-0000-000000000000"
                      Algorithm := "bogus-algorithm"
                      Active := false
                      CreateTime := 5 }
            Key := [] } := by
  rfl

/-- C8 amended: for every algorithm identifier that is not one of the two
supported algorithms, `GenerateNewRootKey` returns no error: the switch has
no default case, so it produces a key whose metadata records the requested
algorithm but whose raw key material is empty (nil). -/
theorem c8_unknown_algorithm_returns_nil_key (e : Encrypter)
    (alg freshID : String) (now : Int) (rand : Nat → Except String (List Nat))
    (h1 : alg ≠ encryptionAlgorithmAES256GCM)
    (h2 : alg ≠ encryptionAlgorithmXChaCha20) :
    e.GenerateNewRootKey alg freshID now rand =
      .ok { Meta := { KeyID := freshID, Algorithm := alg, Active := false
                      CreateTime := now }
            Key := [] } := by
  unfold Encrypter.GenerateNewRootKey
  rw [if_neg h1, if_neg h2]
  rfl

/-- Witness for the amended C8 at the concrete unsupported algorithm
"alg-x". -/
theorem c8_witness :
    encB.GenerateNewRootKey ("alg-x") ("eeeeeeee-0000-0000-0000-000000000000")
      9 randOnes =
      .ok { Meta := { KeyID := "eeeeeeee-0000-0000-0000-000000000000"
                      Algorithm := "alg-x"
                      Active := false
                      CreateTime := 9 }
            Key := [] } :=
  c8_unknown_algorithm_returns_nil_key encB ("alg-x")
    ("eeeeeeee-0000-0000-0000-000000000000") 9 randOnes (by decide) (by decide)

/-- C9: for each of the two supported algorithms, whenever
`GenerateNewRootKey` succeeds (with a random source that, as
`crypto/rand.Read` does, fills the whole buffer on success), the produced
key has exactly 32 bytes of raw key material and its metadata records the
requested algorithm. -/
theorem c9_generate_key_length_and_algorithm (e : Encrypter)
    (alg freshID : String) (now : Int) (rand : Nat → Except String (List Nat))
    (k : RootKey)
    (hrand : ∀ n bs, rand n = .ok bs → bs.length = n)
    (halg : alg = encryptionAlgorithmAES256GCM ∨ alg = encryptionAlgorithmXChaCha20)
    (hk : e.GenerateNewRootKey alg freshID now rand = .ok k) :
    k.Key.length = 32 ∧ k.Meta.Algorithm = alg := by
  rcases halg with h | h
  · subst h
    unfold Encrypter.GenerateNewRootKey at hk
    rw [if_pos rfl] at hk
    cases hr : rand 32 with
    | error msg => rw [hr] at hk; exact absurd hk (by simp)
    | ok bs =>
      rw [hr] at hk
      injection hk with hk
      subst hk
      exact ⟨hrand 32 bs hr, rfl⟩
  · subst h
    unfold Encrypter.GenerateNewRootKey at hk
    rw [if_neg (by decide), if_pos rfl] at hk
    cases hr : rand chacha20poly1305KeySize with
    | error msg => rw [hr] at hk; exact absurd hk (by simp)
    | ok bs =>
      rw [hr] at hk
      injection hk with hk
      subst hk
      exact ⟨hrand chacha20poly1305KeySize bs hr, rfl⟩

/-- Witness for C9: the aes256-gcm key generated from the `randTwos`
source has 32 key bytes and records the requested algorithm. -/
theorem c9_witness :
    rootKeyC9.Key.length = 32 ∧
    rootKeyC9.Meta.Algorithm = encryptionAlgorithmAES256GCM :=
  c9_generate_key_length_and_algorithm encB encryptionAlgorithmAES256GCM
    ("ffffffff-0000-0000-0000-000000000000") 3 randTwos rootKeyC9
    (fun n bs h => by
      simp only [randTwos, Except.ok.injEq] at h
      rw [← h]
      exact List.length_replicate n 2)
    (Or.inl rfl)
    (by rfl)

/-- C10: `PersistRootKey` leaves the encrypter — in particular its
in-memory cipher map — unchanged for every input key and directory state:
the returned receiver equals the original, so every key ID (registered,
unregistered, or the just-persisted one) resolves in the cipher map exactly
as it did before the persist call. -/
theorem c10_persist_preserves_cipher_map (e : Encrypter) (k : RootKey)
    (entries : List KeystoreEntry) (id : String) :
    (e.PersistRootKey k entries).1 = e ∧
    ((e.PersistRootKey k entries).1.ciphers.lookup id) = e.ciphers.lookup id :=
  ⟨rfl, rfl⟩

end NomadKeyring
